import Mathlib

/-!
# robotnik_rc_controller: RC input to velocity command

A shallow embedding of `src/robotnik_rc_controller.cpp` (class
`robotnik_rc_controller`, derived from `RComponent` of
`include/robotnik_rc_controller/rcomponent.h`).

Conventions of the embedding

* `uint16_t` values are `Fin 65536`; only their `.val` is used, so no modular
  arithmetic takes place (the code only copies and widens channel values).
* `double` values are exact rationals (`ℚ`).  The normalisations of the callback
  (an integer difference divided by `512` or `1024`) and all comparisons are exact
  in binary64 as well; only the products `x * level * scale` are rounded there.
* The local array `uint16_t channels[MAX_CHANNELS]` has exactly `MAX_CHANNELS`
  slots, `Fin MAX_CHANNELS → Chan`; its initial content is a parameter (the array
  is not initialised).  Every index the callback stores to or loads from is logged.
* Undefined behaviour is a `Fault`: a store past the end of the local array, and
  control reaching the end of a value-returning function without a `return`.  A
  faulting call has no resulting members.
* ROS publishers are modelled by the list of messages handed to them.
-/

set_option autoImplicit false
set_option linter.unusedVariables false

namespace RobotnikRc

/-! ## Constants (lines 30-43 of robotnik_rc_controller.cpp) -/

/-- A `uint16_t` channel value. -/
abbrev Chan := Fin 65536

def MAX_VAL : ℚ := 2006
def MIN_VAL : ℚ := 982
def CEN_VAL : ℚ := 1494
def MAX_CHANNELS : Nat := 32

def DEFAULT_CH_LEVEL : Nat := 1
def DEFAULT_CH_W : Nat := 2
def DEFAULT_CH_X : Nat := 3
def DEFAULT_CH_Y : Nat := 4
def DEFAULT_CH_TAKE_OVER : Nat := 6
def DEFAULT_DEAD_ZONE : ℚ := 5 / 100

/-- Maximum linear speed in m/s. -/
def MAX_LINEAR_SPEED : ℚ := 3
/-- Maximum angular speed in rad/s (the literal `6.28`). -/
def MAX_ANGULAR_SPEED : ℚ := 628 / 100

/-- The ways a call can leave defined behaviour. -/
inductive Fault
  /-- A store to `channels[i]` with `i ≥ MAX_CHANNELS`. -/
  | storePastEnd (i : Nat)
  /-- The closing brace of a function returning `int` reached without `return`. -/
  | missingReturn
  deriving DecidableEq, Repr

/-! ## Base class `RComponent` (rcomponent.h) -/

/-- Return values of methods and functions (`enum ReturnValue`). -/
inductive ReturnValue
  | OK | INITIALIZED | THREAD_RUNNING | ERROR | NOT_INITIALIZED
  | THREAD_NOT_RUNNING | COM_ERROR | NOT_ERROR
  deriving DecidableEq, Repr

/-- Modelled from the spec: the component states of `robotnik_msgs/State.h`, which
is not part of the sources; section 3 of the specification lists them as
`INIT, STANDBY, READY, EMERGENCY, FAILURE, SHUTDOWN`. -/
inductive State
  | INIT_STATE | STANDBY_STATE | READY_STATE
  | EMERGENCY_STATE | FAILURE_STATE | SHUTDOWN_STATE
  deriving DecidableEq, Repr

/-- The protected data members of `RComponent` that the state machine uses. -/
structure RComponent where
  running : Bool
  state : State
  previous_state : State
  deriving DecidableEq

/-- Modelled from the spec: `RComponent::switchToState`, declared in rcomponent.h
but defined outside the sources.  Section 4.1: "unconditionally sets
`previous_state = current_state; current_state = new_state`". -/
def RComponent.switchToState (b : RComponent) (new_state : State) : RComponent :=
  { b with previous_state := b.state, state := new_state }

/-- Modelled from the spec: the base hook `RComponent::initState`, declared in
rcomponent.h but defined outside the sources.  Section 9 describes the hooks of
the base as "default no-op implementations for each hook". -/
def RComponent.initState (b : RComponent) : RComponent := b

/-- Modelled from the spec: the base hook `RComponent::readyState`, declared in
rcomponent.h but defined outside the sources; a default no-op hook (section 9). -/
def RComponent.readyState (b : RComponent) : RComponent := b

/-! ## Class `robotnik_rc_controller` -/

/-- The data members of `robotnik_rc_controller` (lines 60-64) on top of the
base class. -/
structure robotnik_rc_controller extends RComponent where
  dead_zone_ : ℚ
  take_over_ : Bool
  ch_x_ : ℚ
  ch_y_ : ℚ
  ch_w_ : ℚ
  scale_x_ : ℚ
  scale_y_ : ℚ
  scale_w_ : ℚ
  deriving DecidableEq

/-- The statements of `rosSetup` (lines 74-91).  `base` is the value returned by
`RComponent::rosSetup()` (defined outside the sources) and `dead_zone_param` the
value of the private parameter `dead_zone`, if the parameter server has one.
Topic names and the ROS handles are not modelled.  The seven assignments of lines
85-91 are outside the `if`. -/
def rosSetupBody (base : ReturnValue) (dead_zone_param : Option ℚ)
    (c : robotnik_rc_controller) : robotnik_rc_controller :=
  let c := if base = ReturnValue.OK then
      { c with dead_zone_ := dead_zone_param.getD (5 / 100) }
    else c
  { c with
    ch_x_ := 0
    ch_y_ := 0
    ch_w_ := 0
    take_over_ := false
    scale_x_ := MAX_LINEAR_SPEED
    scale_y_ := MAX_LINEAR_SPEED
    scale_w_ := MAX_ANGULAR_SPEED }

/-- `int rosSetup()` (lines 73-92): the statements of the body run and control
reaches the closing brace of line 92; no path of the function has a `return`
statement, so no call returns a value to its caller. -/
def rosSetup (base : ReturnValue) (dead_zone_param : Option ℚ)
    (c : robotnik_rc_controller) : Except Fault (ReturnValue × robotnik_rc_controller) :=
  let c := rosSetupBody base dead_zone_param c
  Except.error Fault.missingReturn

/-- The local array `uint16_t channels[MAX_CHANNELS]` of `rcInCallback`, the log of
the indices stored to, and the fault of the copy loop, if any. -/
structure Buffer where
  channels : Fin MAX_CHANNELS → Chan
  stores : List Nat
  fault : Option Fault

/-- The copy loop of lines 125-126, `channels[i] = rc_in->channels[i]`, started at
index `i` with the message elements still to be copied.  The source has no test
of `i` against `MAX_CHANNELS`: the store to an index past the end of the array is
logged and is a fault, after which nothing is defined. -/
def copyChannels : List Chan → Nat → Buffer → Buffer
  | [], _, b => b
  | v :: rest, i, b =>
    if h : i < MAX_CHANNELS then
      copyChannels rest (i + 1)
        { b with channels := Function.update b.channels ⟨i, h⟩ v, stores := b.stores ++ [i] }
    else
      { b with stores := b.stores ++ [i], fault := some (Fault.storePastEnd i) }

/-- `level` of line 148: `(MAX_VAL - (double) channels[DEFAULT_CH_LEVEL]) / range`. -/
def levelOf (ch : Chan) : ℚ := (MAX_VAL - (ch.val : ℚ)) / (MAX_VAL - MIN_VAL)

/-- `x` of line 149: `((double) channels[DEFAULT_CH_X] - CEN_VAL) / (range/2.0)`. -/
def xOf (ch : Chan) : ℚ := ((ch.val : ℚ) - CEN_VAL) / ((MAX_VAL - MIN_VAL) / 2)

/-- `y` of line 152 and `w` of line 155:
`-1.0 * ((double) channels[k] - CEN_VAL) / (range/2.0)`. -/
def negOf (ch : Chan) : ℚ := -1 * ((ch.val : ℚ) - CEN_VAL) / ((MAX_VAL - MIN_VAL) / 2)

/-- The dead-zone test `(v > -dead_zone_) && (v < dead_zone_)`. -/
def inDeadZone (dead_zone : ℚ) (v : ℚ) : Bool :=
  decide (v > -dead_zone) && decide (v < dead_zone)

/-- What one call of `rcInCallback` does: the members afterwards, or the fault
that ended defined behaviour, and the indices of the local array it stored to and
loaded from, in program order. -/
structure CallbackRun where
  result : Except Fault robotnik_rc_controller
  stores : List Nat
  loads : List Nat

/-- `rcInCallback` (lines 105-160).  `uninit` is the indeterminate initial content
of the local array; `rc_in` is `rc_in->channels`. -/
def rcInCallback (c : robotnik_rc_controller) (uninit : Fin MAX_CHANNELS → Chan)
    (rc_in : List Chan) : CallbackRun :=
  if rc_in.length < 6 then
    -- ROS_ERROR("rcInCallback - incomplete message received"); return;
    ⟨Except.ok c, [], []⟩
  else
    let buf := copyChannels rc_in 0 ⟨uninit, [], none⟩
    match buf.fault with
    | some f => ⟨Except.error f, buf.stores, []⟩
    | none =>
      let channels := buf.channels
      let level := levelOf (channels ⟨DEFAULT_CH_LEVEL, by decide⟩)
      let x := xOf (channels ⟨DEFAULT_CH_X, by decide⟩)
      let x := if inDeadZone c.dead_zone_ x then 0 else x
      let ch_x := x * level * c.scale_x_
      let y := negOf (channels ⟨DEFAULT_CH_Y, by decide⟩)
      let y := if inDeadZone c.dead_zone_ y then 0 else y
      let ch_y := y * level * c.scale_y_
      let w := negOf (channels ⟨DEFAULT_CH_W, by decide⟩)
      -- line 156 assigns `y`, not `w`
      let y := if inDeadZone c.dead_zone_ w then 0 else y
      let ch_w := w * level * c.scale_w_
      let take_over :=
        if ((channels ⟨DEFAULT_CH_TAKE_OVER, by decide⟩).val : ℚ) > CEN_VAL then false
        else true
      ⟨Except.ok
          { c with ch_x_ := ch_x, ch_y_ := ch_y, ch_w_ := ch_w, take_over_ := take_over },
        buf.stores,
        [DEFAULT_CH_LEVEL, DEFAULT_CH_X, DEFAULT_CH_Y, DEFAULT_CH_W, DEFAULT_CH_TAKE_OVER]⟩

/-- A `geometry_msgs::Twist`; a default-constructed one has all components zero. -/
structure Twist where
  linear_x : ℚ := 0
  linear_y : ℚ := 0
  linear_z : ℚ := 0
  angular_x : ℚ := 0
  angular_y : ℚ := 0
  angular_z : ℚ := 0
  deriving DecidableEq

/-- A message handed to one of the two publishers of the component. -/
inductive Published
  | cmd_vel (t : Twist)
  | take_over (data : Bool)
  deriving DecidableEq

/-- The velocity commands among the published messages. -/
def cmdVels : List Published → List Twist
  | [] => []
  | Published.cmd_vel t :: rest => t :: cmdVels rest
  | Published.take_over _ :: rest => cmdVels rest

/-- The override flags among the published messages. -/
def takeOvers : List Published → List Bool
  | [] => []
  | Published.cmd_vel _ :: rest => takeOvers rest
  | Published.take_over d :: rest => d :: takeOvers rest

/-- `readyState` (lines 163-180): the members afterwards and the messages handed to
`cmd_vel_pub_` and `take_over_pub_`, in order. -/
def readyState (c : robotnik_rc_controller) : robotnik_rc_controller × List Published :=
  let c := { c with toRComponent := c.toRComponent.readyState }
  let cmd_vel : Twist := {}
  let pub1 :=
    if c.take_over_ then
      [Published.cmd_vel { cmd_vel with
        linear_x := c.ch_x_, linear_y := c.ch_y_, linear_z := 0,
        angular_x := 0, angular_y := 0, angular_z := c.ch_w_ }]
    else []
  (c, pub1 ++ [Published.take_over c.take_over_])

/-- `initState` (lines 182-186): the base hook, `rosSetup()`, then
`switchToState(READY_STATE)`.  `base` and `dead_zone_param` are the inputs of
`rosSetup`; the call of `rosSetup` has to return before `switchToState` runs. -/
def initState (base : ReturnValue) (dead_zone_param : Option ℚ)
    (c : robotnik_rc_controller) : Except Fault robotnik_rc_controller :=
  let c := { c with toRComponent := c.toRComponent.initState }
  match rosSetup base dead_zone_param c with
  | Except.error f => Except.error f
  | Except.ok (_, c) =>
    Except.ok { c with toRComponent := c.toRComponent.switchToState State.READY_STATE }

/-! ## Example inputs -/

/-- The members after the assignments of `rosSetup` with the default dead zone
`0.05`, in state READY. -/
def readyController : robotnik_rc_controller :=
  { running := true, state := State.READY_STATE, previous_state := State.INIT_STATE,
    dead_zone_ := 5 / 100, take_over_ := false, ch_x_ := 0, ch_y_ := 0, ch_w_ := 0,
    scale_x_ := MAX_LINEAR_SPEED, scale_y_ := MAX_LINEAR_SPEED,
    scale_w_ := MAX_ANGULAR_SPEED }

/-- A local array whose slots all hold `v` before the callback runs. -/
def filled (v : Chan) : Fin MAX_CHANNELS → Chan := fun _ => v

/-! ## Lemmas on the copy loop -/

theorem copyChannels_channels (l : List Chan) (i : Nat) (b : Buffer)
    (j : Fin MAX_CHANNELS) :
    (copyChannels l i b).channels j =
      if i ≤ j.val then (l[j.val - i]?).getD (b.channels j) else b.channels j := by
  induction l generalizing i b with
  | nil => simp [copyChannels]
  | cons v rest ih =>
    by_cases hi : i < MAX_CHANNELS
    · simp only [copyChannels, hi, dite_true]
      rw [ih]
      by_cases h1 : i + 1 ≤ j.val
      · have h2 : i ≤ j.val := by omega
        have h3 : j ≠ ⟨i, hi⟩ := by
          intro h
          rw [h] at h1
          simp at h1
        have h4 : j.val - i = (j.val - (i + 1)) + 1 := by omega
        simp only [h1, h2, if_true, Function.update_noteq h3]
        rw [h4, List.getElem?_cons_succ]
      · by_cases h2 : i = j.val
        · have h3 : j = ⟨i, hi⟩ := Fin.ext h2.symm
          subst h3
          simp
        · have h3 : ¬ i ≤ j.val := by omega
          have h4 : j ≠ ⟨i, hi⟩ := by
            intro h
            rw [h] at h2
            simp at h2
          simp [h1, h3, Function.update_noteq h4]
    · have hj : ¬ i ≤ j.val := by
        have := j.isLt
        omega
      simp [copyChannels, hi, hj]

theorem copyChannels_fault (l : List Chan) (i : Nat) (b : Buffer)
    (hi : i ≤ MAX_CHANNELS) :
    (copyChannels l i b).fault =
      if i + l.length ≤ MAX_CHANNELS then b.fault
      else some (Fault.storePastEnd MAX_CHANNELS) := by
  induction l generalizing i b with
  | nil => simp [copyChannels, hi]
  | cons v rest ih =>
    by_cases h : i < MAX_CHANNELS
    · simp only [copyChannels, h, dite_true]
      rw [ih _ _ (by omega)]
      simp only [List.length_cons]
      have e : (i + 1 + rest.length ≤ MAX_CHANNELS) ↔ (i + (rest.length + 1) ≤ MAX_CHANNELS) := by
        omega
      simp only [e]
    · have e : i = MAX_CHANNELS := by omega
      have h2 : ¬ i + (rest.length + 1) ≤ MAX_CHANNELS := by omega
      simp only [copyChannels, h, dite_false, List.length_cons, h2, if_false]
      rw [e]

theorem copyChannels_stores (l : List Chan) (i : Nat) (b : Buffer)
    (hi : i ≤ MAX_CHANNELS) :
    (copyChannels l i b).stores =
      b.stores ++ List.range' i (min l.length (MAX_CHANNELS + 1 - i)) := by
  induction l generalizing i b with
  | nil => simp [copyChannels]
  | cons v rest ih =>
    by_cases h : i < MAX_CHANNELS
    · simp only [copyChannels, h, dite_true]
      rw [ih _ _ (by omega)]
      have e : min (v :: rest).length (MAX_CHANNELS + 1 - i)
          = min rest.length (MAX_CHANNELS + 1 - (i + 1)) + 1 := by
        simp only [List.length_cons]
        omega
      rw [e, List.range'_succ]
      simp
    · have e : min (v :: rest).length (MAX_CHANNELS + 1 - i) = 1 := by
        simp only [List.length_cons]
        omega
      simp only [copyChannels, h, dite_false]
      rw [e]
      simp [List.range']

/-! ## Lemmas on the callback -/

/-- A message of more than `MAX_CHANNELS` channels makes the copy loop store to
slot 32, past the end of the local array. -/
theorem rcInCallback_overflow (c : robotnik_rc_controller) (uninit : Fin MAX_CHANNELS → Chan)
    (rc_in : List Chan) (h : MAX_CHANNELS < rc_in.length) :
    (rcInCallback c uninit rc_in).result = Except.error (Fault.storePastEnd 32) := by
  have hM : MAX_CHANNELS = 32 := rfl
  have h6 : ¬ rc_in.length < 6 := by omega
  have hf : (copyChannels rc_in 0 ⟨uninit, [], none⟩).fault
      = some (Fault.storePastEnd 32) := by
    rw [copyChannels_fault _ _ _ (by omega)]
    have h2 : ¬ 0 + rc_in.length ≤ MAX_CHANNELS := by omega
    simp only [h2, if_false]
    rfl
  simp only [rcInCallback, h6, if_false]
  split
  · rename_i f hf2
    rw [hf] at hf2
    cases hf2
    rfl
  · rename_i hf2
    rw [hf] at hf2
    cases hf2

/-- The members after a call with a message of 6 to `MAX_CHANNELS` channels.  Slot 6
holds element 6 of the message if there is one, and its initial content if not. -/
theorem rcInCallback_result (c : robotnik_rc_controller) (uninit : Fin MAX_CHANNELS → Chan)
    (rc_in : List Chan) (h6 : 6 ≤ rc_in.length) (h32 : rc_in.length ≤ MAX_CHANNELS) :
    (rcInCallback c uninit rc_in).result = Except.ok
      { c with
        ch_x_ := (if inDeadZone c.dead_zone_ (xOf rc_in[3]) then 0 else xOf rc_in[3])
                  * levelOf rc_in[1] * c.scale_x_
        ch_y_ := (if inDeadZone c.dead_zone_ (negOf rc_in[4]) then 0 else negOf rc_in[4])
                  * levelOf rc_in[1] * c.scale_y_
        ch_w_ := negOf rc_in[2] * levelOf rc_in[1] * c.scale_w_
        take_over_ :=
          if ((((rc_in[6]?).getD (uninit ⟨6, by decide⟩)).val : ℚ)) > CEN_VAL then false
          else true } := by
  have h6n : ¬ rc_in.length < 6 := by omega
  have hf : (copyChannels rc_in 0 ⟨uninit, [], none⟩).fault = none := by
    rw [copyChannels_fault _ _ _ (by omega)]
    have h2 : 0 + rc_in.length ≤ MAX_CHANNELS := by omega
    simp only [h2, if_true]
  have g1 : (copyChannels rc_in 0 ⟨uninit, [], none⟩).channels ⟨1, by decide⟩ = rc_in[1] := by
    rw [copyChannels_channels]
    simp [List.getElem?_eq_getElem (show 1 < rc_in.length by omega)]
  have g2 : (copyChannels rc_in 0 ⟨uninit, [], none⟩).channels ⟨2, by decide⟩ = rc_in[2] := by
    rw [copyChannels_channels]
    simp [List.getElem?_eq_getElem (show 2 < rc_in.length by omega)]
  have g3 : (copyChannels rc_in 0 ⟨uninit, [], none⟩).channels ⟨3, by decide⟩ = rc_in[3] := by
    rw [copyChannels_channels]
    simp [List.getElem?_eq_getElem (show 3 < rc_in.length by omega)]
  have g4 : (copyChannels rc_in 0 ⟨uninit, [], none⟩).channels ⟨4, by decide⟩ = rc_in[4] := by
    rw [copyChannels_channels]
    simp [List.getElem?_eq_getElem (show 4 < rc_in.length by omega)]
  have g6 : (copyChannels rc_in 0 ⟨uninit, [], none⟩).channels ⟨6, by decide⟩
      = (rc_in[6]?).getD (uninit ⟨6, by decide⟩) := by
    rw [copyChannels_channels]
    simp
  simp only [rcInCallback, h6n, if_false]
  split
  · rename_i f hf2
    rw [hf] at hf2
    cases hf2
  · simp only [DEFAULT_CH_LEVEL, DEFAULT_CH_X, DEFAULT_CH_Y, DEFAULT_CH_W,
      DEFAULT_CH_TAKE_OVER, g1, g2, g3, g4, g6]

/-- The members after a call with a message of 7 to `MAX_CHANNELS` channels, in
terms of the message elements. -/
theorem rcInCallback_state (c : robotnik_rc_controller) (uninit : Fin MAX_CHANNELS → Chan)
    (rc_in : List Chan) (h7 : 7 ≤ rc_in.length) (h32 : rc_in.length ≤ MAX_CHANNELS) :
    (rcInCallback c uninit rc_in).result = Except.ok
      { c with
        ch_x_ := (if inDeadZone c.dead_zone_ (xOf rc_in[3]) then 0 else xOf rc_in[3])
                  * levelOf rc_in[1] * c.scale_x_
        ch_y_ := (if inDeadZone c.dead_zone_ (negOf rc_in[4]) then 0 else negOf rc_in[4])
                  * levelOf rc_in[1] * c.scale_y_
        ch_w_ := negOf rc_in[2] * levelOf rc_in[1] * c.scale_w_
        take_over_ := if ((rc_in[6]).val : ℚ) > CEN_VAL then false else true } := by
  rw [rcInCallback_result c uninit rc_in (by omega) h32]
  simp [List.getElem?_eq_getElem (show 6 < rc_in.length by omega)]

/-! ## Incomplete messages -/

/-- C9: a message with fewer than six channels is rejected and the call returns
with every member as it was, in particular `ch_x_`, `ch_y_`, `ch_w_` and
`take_over_`; no slot of the local array is touched. -/
theorem short_message_ignored (c : robotnik_rc_controller)
    (uninit : Fin MAX_CHANNELS → Chan) (rc_in : List Chan) (h : rc_in.length < 6) :
    (rcInCallback c uninit rc_in).result = Except.ok c ∧
    (∃ s, (rcInCallback c uninit rc_in).result = Except.ok s ∧
      s.ch_x_ = c.ch_x_ ∧ s.ch_y_ = c.ch_y_ ∧ s.ch_w_ = c.ch_w_ ∧
      s.take_over_ = c.take_over_) ∧
    (rcInCallback c uninit rc_in).stores = [] ∧
    (rcInCallback c uninit rc_in).loads = [] := by
  have e : (rcInCallback c uninit rc_in).result = Except.ok c := by
    simp [rcInCallback, h]
  refine ⟨e, ⟨c, e, rfl, rfl, rfl, rfl⟩, ?_, ?_⟩
  · simp [rcInCallback, h]
  · simp [rcInCallback, h]

/-- A five-channel message with every stick deflected and the switch on leaves the
members of `readyController` untouched. -/
theorem short_message_ignored_witness :
    (rcInCallback readyController (filled 0) [2006, 982, 2006, 2006, 2006]).result
      = Except.ok readyController :=
  (short_message_ignored readyController (filled 0) [2006, 982, 2006, 2006, 2006]
    (by decide)).1

/-! ## The READY hook -/

/-- C5, as stated, fails: with `take_over_ = false` the READY hook hands nothing to
the velocity publisher, so it does not publish exactly one velocity command. -/
theorem ready_without_take_over_is_silent :
    readyController.take_over_ = false ∧
    (cmdVels (readyState readyController).2).length = 0 ∧
    ¬ ((cmdVels (readyState readyController).2).length = 1 ∧
       (takeOvers (readyState readyController).2).length = 1) := by
  simp [readyState, readyController, cmdVels, takeOvers]

/-- C5, amended: for every cached state one execution of `readyState` publishes
exactly one override-flag message, and it publishes exactly one velocity command
when `take_over_` is true and none when `take_over_` is false. -/
theorem ready_publishes_flag_and_guarded_velocity (c : robotnik_rc_controller) :
    (takeOvers (readyState c).2).length = 1 ∧
    (cmdVels (readyState c).2).length = (if c.take_over_ then 1 else 0) := by
  cases h : c.take_over_ <;>
    simp [readyState, RComponent.readyState, cmdVels, takeOvers, h]

/-- C6: the override-flag message carries `take_over_`, and the velocity command,
when one is published, has `linear.x = ch_x_`, `linear.y = ch_y_`,
`angular.z = ch_w_` and zero in `linear.z`, `angular.x`, `angular.y`; the hook
leaves the cached values as they were. -/
theorem ready_messages_carry_cache (c : robotnik_rc_controller) :
    takeOvers (readyState c).2 = [c.take_over_] ∧
    cmdVels (readyState c).2 =
      (if c.take_over_ then
        [{ linear_x := c.ch_x_, linear_y := c.ch_y_, linear_z := 0,
           angular_x := 0, angular_y := 0, angular_z := c.ch_w_ }]
      else []) ∧
    (readyState c).1 = c := by
  refine ⟨?_, ?_, rfl⟩ <;> cases h : c.take_over_ <;>
    simp [readyState, RComponent.readyState, cmdVels, takeOvers, h]

/-! ## The level factor -/

/-- C1, as stated, fails: the level factor computed for the minimum value 982 is
`1.0`, not `0.0`, and with the X stick fully deflected the call returns with
`ch_x_ = 3.0`. -/
theorem level_min_is_full_scale :
    levelOf 982 = 1 ∧
    ∃ s, (rcInCallback readyController (filled 0)
        [1494, 982, 1494, 2006, 1494, 1494, 1494]).result = Except.ok s ∧
      s.ch_x_ = 3 ∧ ¬ (s.ch_x_ = 0 ∧ s.ch_y_ = 0 ∧ s.ch_w_ = 0) := by
  refine ⟨?_, _, rcInCallback_state _ _ _ (by decide) (by decide), ?_, ?_⟩
  · norm_num [levelOf, MAX_VAL, MIN_VAL, Fin.coe_ofNat_eq_mod]
  · norm_num [levelOf, xOf, inDeadZone, readyController, MAX_VAL, MIN_VAL, CEN_VAL,
      MAX_LINEAR_SPEED, Fin.coe_ofNat_eq_mod]
  · norm_num [levelOf, xOf, inDeadZone, readyController, MAX_VAL, MIN_VAL, CEN_VAL,
      MAX_LINEAR_SPEED, Fin.coe_ofNat_eq_mod]

/-- C1, amended: for every message with at least seven and at most `MAX_CHANNELS`
(32) channels whose level channel (index 1) has the maximum value 2006, the level
factor is `0.0` and `rcInCallback` returns with `ch_x_`, `ch_y_` and `ch_w_` equal
to `0.0`, whatever the stick channels, the scales and `dead_zone_` are. -/
theorem level_max_zeroes_outputs (c : robotnik_rc_controller)
    (uninit : Fin MAX_CHANNELS → Chan) (rc_in : List Chan) (h7 : 7 ≤ rc_in.length)
    (h32 : rc_in.length ≤ MAX_CHANNELS) (hlevel : (rc_in[1]).val = 2006) :
    levelOf rc_in[1] = 0 ∧
    ∃ s, (rcInCallback c uninit rc_in).result = Except.ok s ∧
      s.ch_x_ = 0 ∧ s.ch_y_ = 0 ∧ s.ch_w_ = 0 := by
  have hl : levelOf rc_in[1] = 0 := by
    simp [levelOf, hlevel, MAX_VAL]
  refine ⟨hl, _, rcInCallback_state c uninit rc_in h7 h32, ?_, ?_, ?_⟩ <;> simp [hl]

/-- Level channel at 2006 with all three sticks fully deflected. -/
theorem level_max_zeroes_outputs_witness :
    ∃ s, (rcInCallback readyController (filled 0)
        [1494, 2006, 982, 2006, 982, 1494, 1494]).result = Except.ok s ∧
      s.ch_x_ = 0 ∧ s.ch_y_ = 0 ∧ s.ch_w_ = 0 :=
  (level_max_zeroes_outputs readyController (filled 0)
    [1494, 2006, 982, 2006, 982, 1494, 1494] (by decide) (by decide) (by decide)).2

/-! ## The override switch -/

/-- C2 on the code: for a message with 7 to `MAX_CHANNELS` (32) channels the call
returns with `take_over_ = false` when channel 6 is greater than the centre value
1494 and with `take_over_ = true` when it is less than 1494, whatever the other
channels, the members before the call and the initial content of the local array
are; for a message with more than 32 channels the copy loop stores to slot 32,
past the end of the local array, and the call has no resulting members. -/
theorem take_over_follows_switch (c : robotnik_rc_controller)
    (uninit : Fin MAX_CHANNELS → Chan) (rc_in : List Chan) (h7 : 7 ≤ rc_in.length) :
    (rc_in.length ≤ MAX_CHANNELS →
      ∃ s, (rcInCallback c uninit rc_in).result = Except.ok s ∧
        (1494 < (rc_in[6]).val → s.take_over_ = false) ∧
        ((rc_in[6]).val < 1494 → s.take_over_ = true)) ∧
    (MAX_CHANNELS < rc_in.length →
      (rcInCallback c uninit rc_in).result = Except.error (Fault.storePastEnd 32)) := by
  refine ⟨fun h32 => ⟨_, rcInCallback_state c uninit rc_in h7 h32, ?_, ?_⟩,
    rcInCallback_overflow c uninit rc_in⟩
  · intro h
    have hq : (1494 : ℚ) < ((rc_in[6]).val : ℚ) := by exact_mod_cast h
    simp [CEN_VAL, hq]
  · intro h
    have hq : ((rc_in[6]).val : ℚ) < 1494 := by exact_mod_cast h
    have hn : ¬ (1494 : ℚ) < ((rc_in[6]).val : ℚ) := not_lt.mpr hq.le
    simp [CEN_VAL, hn]

/-- Override channel 2000 and 1000 in a seven-channel message, and override
channel 2000 in a 33-channel message. -/
theorem take_over_follows_switch_witness :
    (∃ s, (rcInCallback readyController (filled 0)
        [1494, 1494, 1494, 1494, 1494, 1494, 2000]).result = Except.ok s ∧
      s.take_over_ = false) ∧
    (∃ s, (rcInCallback readyController (filled 0)
        [1494, 1494, 1494, 1494, 1494, 1494, 1000]).result = Except.ok s ∧
      s.take_over_ = true) ∧
    (rcInCallback readyController (filled 0)
        ([1494, 1494, 1494, 1494, 1494, 1494, 2000] ++ List.replicate 26 1494)).result
      = Except.error (Fault.storePastEnd 32) := by
  refine ⟨?_, ?_, ?_⟩
  · obtain ⟨s, hs, h1, _⟩ := (take_over_follows_switch readyController (filled 0)
      [1494, 1494, 1494, 1494, 1494, 1494, 2000] (by decide)).1 (by decide)
    exact ⟨s, hs, h1 (by decide)⟩
  · obtain ⟨s, hs, _, h2⟩ := (take_over_follows_switch readyController (filled 0)
      [1494, 1494, 1494, 1494, 1494, 1494, 1000] (by decide)).1 (by decide)
    exact ⟨s, hs, h2 (by decide)⟩
  · exact (take_over_follows_switch readyController (filled 0)
      ([1494, 1494, 1494, 1494, 1494, 1494, 2000] ++ List.replicate 26 1494)
      (by decide)).2 (by decide)

/-! ## The dead zone -/

/-- C3 on the code: for a message with 7 to `MAX_CHANNELS` (32) channels the call
returns, and if the normalised X deflection `(channels[3] - 1494) / 512` lies
strictly inside `(-dead_zone_, dead_zone_)` it leaves `ch_x_ = 0`, if the normalised
Y deflection `-(channels[4] - 1494) / 512` lies strictly inside the band it leaves
`ch_y_ = 0`, for every level value and every scale, and an X channel at the centre
1494 with `dead_zone_ = 0.05` gives `ch_x_ = 0`; for a message with more than 32
channels the copy loop stores to slot 32, past the end of the local array, and
the call has no resulting members. -/
theorem dead_zone_clamps_x_and_y (c : robotnik_rc_controller)
    (uninit : Fin MAX_CHANNELS → Chan) (rc_in : List Chan) (h7 : 7 ≤ rc_in.length) :
    (rc_in.length ≤ MAX_CHANNELS →
      ∃ s, (rcInCallback c uninit rc_in).result = Except.ok s ∧
        (-c.dead_zone_ < (((rc_in[3]).val : ℚ) - 1494) / 512 ∧
            (((rc_in[3]).val : ℚ) - 1494) / 512 < c.dead_zone_ → s.ch_x_ = 0) ∧
        (-c.dead_zone_ < -(((rc_in[4]).val : ℚ) - 1494) / 512 ∧
            -(((rc_in[4]).val : ℚ) - 1494) / 512 < c.dead_zone_ → s.ch_y_ = 0) ∧
        ((rc_in[3]).val = 1494 → c.dead_zone_ = 5 / 100 → s.ch_x_ = 0)) ∧
    (MAX_CHANNELS < rc_in.length →
      (rcInCallback c uninit rc_in).result = Except.error (Fault.storePastEnd 32)) := by
  have hxv : xOf rc_in[3] = (((rc_in[3]).val : ℚ) - 1494) / 512 := by
    norm_num [xOf, MAX_VAL, MIN_VAL, CEN_VAL]
  have hyv : negOf rc_in[4] = -(((rc_in[4]).val : ℚ) - 1494) / 512 := by
    norm_num [negOf, MAX_VAL, MIN_VAL, CEN_VAL]
  refine ⟨fun h32 => ⟨_, rcInCallback_state c uninit rc_in h7 h32, ?_, ?_, ?_⟩,
    rcInCallback_overflow c uninit rc_in⟩
  · intro h
    have hz : inDeadZone c.dead_zone_ (xOf rc_in[3]) = true := by
      unfold inDeadZone
      rw [hxv]
      exact (Bool.and_eq_true _ _).mpr ⟨decide_eq_true h.1, decide_eq_true h.2⟩
    simp [hz]
  · intro h
    have hz : inDeadZone c.dead_zone_ (negOf rc_in[4]) = true := by
      unfold inDeadZone
      rw [hyv]
      exact (Bool.and_eq_true _ _).mpr ⟨decide_eq_true h.1, decide_eq_true h.2⟩
    simp [hz]
  · intro h hd
    have hz : inDeadZone c.dead_zone_ (xOf rc_in[3]) = true := by
      rw [hxv, h, hd]
      norm_num [inDeadZone]
    simp [hz]

/-- X channel at the centre and Y channel six counts off centre, level channel at
982 (level factor one), dead zone `0.05`: both outputs are clamped to zero in a
seven-channel message; the same channels followed by 26 more overrun the array. -/
theorem dead_zone_clamps_x_and_y_witness :
    (∃ s, (rcInCallback readyController (filled 0)
        [1494, 982, 1494, 1494, 1500, 1494, 1494]).result = Except.ok s ∧
      s.ch_x_ = 0 ∧ s.ch_y_ = 0) ∧
    (rcInCallback readyController (filled 0)
        ([1494, 982, 1494, 1494, 1500, 1494, 1494] ++ List.replicate 26 1494)).result
      = Except.error (Fault.storePastEnd 32) := by
  refine ⟨?_, ?_⟩
  · obtain ⟨s, hs, h1, h2, _⟩ := (dead_zone_clamps_x_and_y readyController (filled 0)
      [1494, 982, 1494, 1494, 1500, 1494, 1494] (by decide)).1 (by decide)
    exact ⟨s, hs, h1 (by norm_num [readyController, Fin.coe_ofNat_eq_mod]),
      h2 (by norm_num [readyController, Fin.coe_ofNat_eq_mod])⟩
  · exact (dead_zone_clamps_x_and_y readyController (filled 0)
      ([1494, 982, 1494, 1494, 1500, 1494, 1494] ++ List.replicate 26 1494)
      (by decide)).2 (by decide)

/-- The yaw output is the unclamped product for every message with 7 to
`MAX_CHANNELS` channels: the dead-zone test on `w` never changes `w`. -/
theorem yaw_output_unclamped (c : robotnik_rc_controller)
    (uninit : Fin MAX_CHANNELS → Chan) (rc_in : List Chan) (h7 : 7 ≤ rc_in.length)
    (h32 : rc_in.length ≤ MAX_CHANNELS) :
    ∃ s, (rcInCallback c uninit rc_in).result = Except.ok s ∧
      s.ch_w_ = negOf rc_in[2] * levelOf rc_in[1] * c.scale_w_ :=
  ⟨_, rcInCallback_state c uninit rc_in h7 h32, rfl⟩

/-- C4 at a failing input: yaw channel 1500 gives the normalised deflection
`-6/512`, strictly inside the dead zone `0.05`, yet with the level factor one the
call returns with `ch_w_ = -471/6400` (about `-0.0736`), not `0.0`. -/
theorem yaw_dead_zone_not_applied :
    inDeadZone (5 / 100) (negOf 1500) = true ∧
    ∃ s, (rcInCallback readyController (filled 0)
        [1494, 982, 1500, 1494, 1494, 1494, 1494]).result = Except.ok s ∧
      s.ch_w_ = -471 / 6400 ∧ s.ch_w_ ≠ 0 := by
  refine ⟨?_, _, rcInCallback_state _ _ _ (by decide) (by decide), ?_, ?_⟩
  · norm_num [negOf, inDeadZone, MAX_VAL, MIN_VAL, CEN_VAL, Fin.coe_ofNat_eq_mod]
  · norm_num [levelOf, negOf, readyController, MAX_VAL, MIN_VAL, CEN_VAL,
      MAX_ANGULAR_SPEED, Fin.coe_ofNat_eq_mod]
  · norm_num [levelOf, negOf, readyController, MAX_VAL, MIN_VAL, CEN_VAL,
      MAX_ANGULAR_SPEED, Fin.coe_ofNat_eq_mod]

/-! ## Bounds of the outputs -/

theorem bounded_product (x l s : ℚ) (hx : |x| ≤ 1) (hl0 : 0 ≤ l) (hl1 : l ≤ 1)
    (hs : 0 ≤ s) : |x * l * s| ≤ s := by
  rw [abs_mul, abs_mul, abs_of_nonneg hl0, abs_of_nonneg hs]
  have h1 : |x| * l ≤ 1 := by
    calc |x| * l ≤ 1 * 1 := mul_le_mul hx hl1 hl0 (by norm_num)
      _ = 1 := by norm_num
  calc |x| * l * s ≤ 1 * s := mul_le_mul_of_nonneg_right h1 hs
    _ = s := by ring

theorem clamped_abs_le_one (dz v : ℚ) (h : |v| ≤ 1) :
    |if inDeadZone dz v then 0 else v| ≤ 1 := by
  by_cases hz : inDeadZone dz v = true
  · simp [hz]
  · simp [hz, h]

theorem levelOf_range (ch : Chan) (h : 982 ≤ ch.val ∧ ch.val ≤ 2006) :
    0 ≤ levelOf ch ∧ levelOf ch ≤ 1 := by
  have h1 : (982 : ℚ) ≤ (ch.val : ℚ) := by exact_mod_cast h.1
  have h2 : (ch.val : ℚ) ≤ 2006 := by exact_mod_cast h.2
  have e : levelOf ch = (2006 - (ch.val : ℚ)) / 1024 := by
    norm_num [levelOf, MAX_VAL, MIN_VAL]
  rw [e]
  constructor
  · apply div_nonneg <;> linarith
  · rw [div_le_one (by norm_num)]
    linarith

theorem xOf_range (ch : Chan) (h : 982 ≤ ch.val ∧ ch.val ≤ 2006) :
    -1 ≤ xOf ch ∧ xOf ch ≤ 1 := by
  have h1 : (982 : ℚ) ≤ (ch.val : ℚ) := by exact_mod_cast h.1
  have h2 : (ch.val : ℚ) ≤ 2006 := by exact_mod_cast h.2
  have e : xOf ch = ((ch.val : ℚ) - 1494) / 512 := by
    norm_num [xOf, MAX_VAL, MIN_VAL, CEN_VAL]
  rw [e]
  constructor
  · rw [le_div_iff₀ (by norm_num)]
    linarith
  · rw [div_le_one (by norm_num)]
    linarith

theorem negOf_range (ch : Chan) (h : 982 ≤ ch.val ∧ ch.val ≤ 2006) :
    -1 ≤ negOf ch ∧ negOf ch ≤ 1 := by
  have h1 : (982 : ℚ) ≤ (ch.val : ℚ) := by exact_mod_cast h.1
  have h2 : (ch.val : ℚ) ≤ 2006 := by exact_mod_cast h.2
  have e : negOf ch = (1494 - (ch.val : ℚ)) / 512 := by
    norm_num [negOf, MAX_VAL, MIN_VAL, CEN_VAL]
  rw [e]
  constructor
  · rw [le_div_iff₀ (by norm_num)]
    linarith
  · rw [div_le_one (by norm_num)]
    linarith

/-- C8 on the code: for a message whose channels 1, 2, 3 and 4 lie in
`[982, 2006]`, and for every `dead_zone_`, the level factor lies in `[0, 1]` and the
normalised deflections lie in `[-1, 1]` (on the X axis 982 maps to `-1` and 2006 to
`+1`); with 7 to `MAX_CHANNELS` (32) channels and the scales that `rosSetup` assigns
the call returns with `|ch_x_| ≤ 3`, `|ch_y_| ≤ 3` and `|ch_w_| ≤ 6.28`; with more
than 32 channels the copy loop stores to slot 32, past the end of the local array,
and the call has no resulting members. -/
theorem outputs_within_speed_limits (c : robotnik_rc_controller)
    (uninit : Fin MAX_CHANNELS → Chan) (rc_in : List Chan) (h7 : 7 ≤ rc_in.length)
    (h1 : 982 ≤ (rc_in[1]).val ∧ (rc_in[1]).val ≤ 2006)
    (h2 : 982 ≤ (rc_in[2]).val ∧ (rc_in[2]).val ≤ 2006)
    (h3 : 982 ≤ (rc_in[3]).val ∧ (rc_in[3]).val ≤ 2006)
    (h4 : 982 ≤ (rc_in[4]).val ∧ (rc_in[4]).val ≤ 2006)
    (hx : c.scale_x_ = MAX_LINEAR_SPEED) (hy : c.scale_y_ = MAX_LINEAR_SPEED)
    (hw : c.scale_w_ = MAX_ANGULAR_SPEED) :
    (0 ≤ levelOf rc_in[1] ∧ levelOf rc_in[1] ≤ 1) ∧
    (-1 ≤ xOf rc_in[3] ∧ xOf rc_in[3] ≤ 1) ∧
    (-1 ≤ negOf rc_in[4] ∧ negOf rc_in[4] ≤ 1) ∧
    (-1 ≤ negOf rc_in[2] ∧ negOf rc_in[2] ≤ 1) ∧
    xOf 982 = -1 ∧ xOf 2006 = 1 ∧
    (rc_in.length ≤ MAX_CHANNELS →
      ∃ s, (rcInCallback c uninit rc_in).result = Except.ok s ∧
        |s.ch_x_| ≤ 3 ∧ |s.ch_y_| ≤ 3 ∧ |s.ch_w_| ≤ 628 / 100) ∧
    (MAX_CHANNELS < rc_in.length →
      (rcInCallback c uninit rc_in).result = Except.error (Fault.storePastEnd 32)) := by
  have hl := levelOf_range rc_in[1] h1
  have hxr := xOf_range rc_in[3] h3
  have hyr := negOf_range rc_in[4] h4
  have hwr := negOf_range rc_in[2] h2
  refine ⟨hl, hxr, hyr, hwr, ?_, ?_,
    fun h32 => ⟨_, rcInCallback_state c uninit rc_in h7 h32, ?_, ?_, ?_⟩,
    rcInCallback_overflow c uninit rc_in⟩
  · norm_num [xOf, MAX_VAL, MIN_VAL, CEN_VAL, Fin.coe_ofNat_eq_mod]
  · norm_num [xOf, MAX_VAL, MIN_VAL, CEN_VAL, Fin.coe_ofNat_eq_mod]
  · simp only [hx, MAX_LINEAR_SPEED]
    exact bounded_product _ _ 3 (clamped_abs_le_one _ _ (abs_le.mpr hxr)) hl.1 hl.2
      (by norm_num)
  · simp only [hy, MAX_LINEAR_SPEED]
    exact bounded_product _ _ 3 (clamped_abs_le_one _ _ (abs_le.mpr hyr)) hl.1 hl.2
      (by norm_num)
  · simp only [hw, MAX_ANGULAR_SPEED]
    exact bounded_product _ _ (628 / 100) (abs_le.mpr hwr) hl.1 hl.2 (by norm_num)

/-- All four channels at an end of their range, on the members that the assignments
of `rosSetup` leave with a dead zone of `0.1`: within the limits for a seven-channel
message; the same channels followed by 26 more in-range channels overrun the
array. -/
theorem outputs_within_speed_limits_witness :
    (∃ s, (rcInCallback (rosSetupBody ReturnValue.OK (some (1 / 10)) readyController)
        (filled 0) [1494, 982, 982, 2006, 982, 1494, 1494]).result = Except.ok s ∧
      |s.ch_x_| ≤ 3 ∧ |s.ch_y_| ≤ 3 ∧ |s.ch_w_| ≤ 628 / 100) ∧
    (rcInCallback (rosSetupBody ReturnValue.OK (some (1 / 10)) readyController)
        (filled 0)
        ([1494, 982, 982, 2006, 982, 1494, 1494] ++ List.replicate 26 1494)).result
      = Except.error (Fault.storePastEnd 32) :=
  ⟨(outputs_within_speed_limits
      (rosSetupBody ReturnValue.OK (some (1 / 10)) readyController) (filled 0)
      [1494, 982, 982, 2006, 982, 1494, 1494] (by decide)
      (by decide) (by decide) (by decide) (by decide) rfl rfl rfl).2.2.2.2.2.2.1
      (by decide),
   (outputs_within_speed_limits
      (rosSetupBody ReturnValue.OK (some (1 / 10)) readyController) (filled 0)
      ([1494, 982, 982, 2006, 982, 1494, 1494] ++ List.replicate 26 1494) (by decide)
      (by decide) (by decide) (by decide) (by decide) rfl rfl rfl).2.2.2.2.2.2.2
      (by decide)⟩

/-! ## Bounds of the array accesses -/

/-- For a message that passes the length check the copy loop stores to slots
`0, 1, ...` up to the last element of the message or to slot 32, whichever comes
first, and the slots read afterwards, if the loop stayed inside the array, are
`1, 3, 4, 2, 6`. -/
theorem rcInCallback_accesses (c : robotnik_rc_controller)
    (uninit : Fin MAX_CHANNELS → Chan) (rc_in : List Chan) (h6 : 6 ≤ rc_in.length) :
    (rcInCallback c uninit rc_in).stores
      = List.range' 0 (min rc_in.length (MAX_CHANNELS + 1)) ∧
    (rcInCallback c uninit rc_in).loads
      = (if rc_in.length ≤ MAX_CHANNELS then [1, 3, 4, 2, 6] else []) := by
  have h : ¬ rc_in.length < 6 := by omega
  have hs : (copyChannels rc_in 0 ⟨uninit, [], none⟩).stores
      = List.range' 0 (min rc_in.length (MAX_CHANNELS + 1)) := by
    rw [copyChannels_stores _ _ _ (by omega)]
    simp
  have hf := copyChannels_fault rc_in 0 ⟨uninit, [], none⟩ (by omega)
  simp only [Nat.zero_add] at hf
  simp only [rcInCallback, h, if_false]
  by_cases h32 : rc_in.length ≤ MAX_CHANNELS
  · simp only [h32, if_true] at hf
    simp only [h32, if_true]
    split
    · rename_i f hf2
      rw [hf] at hf2
      cases hf2
    · exact ⟨hs, rfl⟩
  · simp only [h32, if_false] at hf
    simp only [h32, if_false]
    split
    · exact ⟨hs, rfl⟩
    · rename_i hf2
      rw [hf] at hf2
      cases hf2

/-- For a message that passes the length check, every slot read was copied from
the message and every store stays inside the array exactly when the message has
between 7 and 32 channels. -/
theorem accesses_in_bounds_iff (c : robotnik_rc_controller)
    (uninit : Fin MAX_CHANNELS → Chan) (rc_in : List Chan) (h6 : 6 ≤ rc_in.length) :
    ((∀ i ∈ (rcInCallback c uninit rc_in).loads, i < rc_in.length) ∧
     (∀ i ∈ (rcInCallback c uninit rc_in).stores, i < MAX_CHANNELS)) ↔
    (7 ≤ rc_in.length ∧ rc_in.length ≤ MAX_CHANNELS) := by
  obtain ⟨hs, hl⟩ := rcInCallback_accesses c uninit rc_in h6
  rw [hs, hl]
  have hM : MAX_CHANNELS = 32 := rfl
  constructor
  · rintro ⟨h1, h2⟩
    have h32 : rc_in.length ≤ MAX_CHANNELS := by
      by_contra hc
      have := h2 32 (by simp [List.mem_range']; omega)
      omega
    refine ⟨?_, h32⟩
    rw [if_pos h32] at h1
    exact h1 6 (by simp)
  · rintro ⟨h1, h2⟩
    rw [if_pos h2]
    constructor
    · intro i hi
      simp at hi
      omega
    · intro i hi
      simp [List.mem_range'] at hi
      omega

/-- C7 at two failing inputs.  A six-channel message passes the length check, the
call then reads slot 6, which the copy loop did not write (the message has no
index 6), and the resulting `take_over_` is whatever the uninitialised slot held.
A 33-channel message passes the check and the copy loop stores to slot 32 of the
32-slot array, which ends defined behaviour. -/
theorem callback_accesses_out_of_bounds :
    (¬ ([1494, 1494, 1494, 1494, 1494, 1494] : List Chan).length < 6 ∧
      6 ∈ (rcInCallback readyController (filled 0)
            [1494, 1494, 1494, 1494, 1494, 1494]).loads ∧
      ¬ 6 < ([1494, 1494, 1494, 1494, 1494, 1494] : List Chan).length ∧
      (∃ s, (rcInCallback readyController (filled 0)
            [1494, 1494, 1494, 1494, 1494, 1494]).result = Except.ok s ∧
        s.take_over_ = true) ∧
      (∃ s, (rcInCallback readyController (filled 2000)
            [1494, 1494, 1494, 1494, 1494, 1494]).result = Except.ok s ∧
        s.take_over_ = false)) ∧
    (¬ (List.replicate 33 (1494 : Chan)).length < 6 ∧
      32 ∈ (rcInCallback readyController (filled 0) (List.replicate 33 1494)).stores ∧
      ¬ 32 < MAX_CHANNELS ∧
      (rcInCallback readyController (filled 0) (List.replicate 33 1494)).result
        = Except.error (Fault.storePastEnd 32)) := by
  refine ⟨⟨by decide, ?_, by decide,
      ⟨_, rcInCallback_result _ _ _ (by decide) (by decide), ?_⟩,
      ⟨_, rcInCallback_result _ _ _ (by decide) (by decide), ?_⟩⟩,
    by decide, ?_, by decide, rcInCallback_overflow _ _ _ (by decide)⟩
  · rw [(rcInCallback_accesses readyController (filled 0)
      [1494, 1494, 1494, 1494, 1494, 1494] (by decide)).2]
    decide
  · norm_num [filled, CEN_VAL, Fin.coe_ofNat_eq_mod]
  · norm_num [filled, CEN_VAL, Fin.coe_ofNat_eq_mod]
  · rw [(rcInCallback_accesses readyController (filled 0)
      (List.replicate 33 1494) (by decide)).1]
    decide

/-! ## The INIT hook -/

/-- C10 on the code: for every component state, whatever the base `rosSetup`
returns and whatever the `dead_zone` parameter is, the statements of `rosSetup`
assign `ch_x_ = ch_y_ = ch_w_ = 0`, `take_over_ = false`, `scale_x_ = scale_y_ = 3`
and `scale_w_ = 6.28` and leave `state` as it was, but `rosSetup` then reaches its
closing brace without a `return` statement, so neither `rosSetup` nor `initState`
returns: `switchToState(READY_STATE)` is never reached in defined behaviour. -/
theorem init_hook_flows_off_rosSetup (base : ReturnValue) (dead_zone_param : Option ℚ)
    (c : robotnik_rc_controller) :
    rosSetup base dead_zone_param c = Except.error Fault.missingReturn ∧
    initState base dead_zone_param c = Except.error Fault.missingReturn ∧
    (rosSetupBody base dead_zone_param c).ch_x_ = 0 ∧
    (rosSetupBody base dead_zone_param c).ch_y_ = 0 ∧
    (rosSetupBody base dead_zone_param c).ch_w_ = 0 ∧
    (rosSetupBody base dead_zone_param c).take_over_ = false ∧
    (rosSetupBody base dead_zone_param c).scale_x_ = 3 ∧
    (rosSetupBody base dead_zone_param c).scale_y_ = 3 ∧
    (rosSetupBody base dead_zone_param c).scale_w_ = 628 / 100 ∧
    (rosSetupBody base dead_zone_param c).state = c.state := by
  refine ⟨rfl, rfl, ?_⟩
  by_cases hb : base = ReturnValue.OK <;>
    simp [rosSetupBody, MAX_LINEAR_SPEED, MAX_ANGULAR_SPEED, hb]

end RobotnikRc
